import Mathlib

/-!
Shallow embedding of `src/persistence.rs` from the rapid-gossip-sync-server
repository: the `GossipPersister` actor loop (`persist_gossip`) and the
network-graph cache operation (`persist_network_graph`).

Modelling conventions:
- Rust machine integers become `Nat` (unsigned values) with explicit
  `% 2 ^ w` wherever overflow can occur, and `Int` for the signed values the
  rows store, with explicit two's-complement casts.
- The database is a pair of row lists; an `INSERT ... ON CONFLICT ... DO
  NOTHING` becomes an append guarded by a key-membership test.
- Monotonic time: each received message carries the instant (in whole
  seconds since the loop started) at which the actor dequeues it;
  `Instant::elapsed` becomes truncated `Nat` subtraction from the stored
  instant.
- Channel sends/receives and the `tokio` machinery are externalised: a run
  of the loop is the fold of the per-message step function over the finite
  list of messages the producer sent before closing the channel, and the
  effects the claims talk about (completion signals, cache invocations,
  counter underflow at the wrapping decrement) are recorded in the state.
- `lightning::util::ser::Writeable` (the canonical signed wire encoding) is
  an external collaborator; the encoded bytes travel as an opaque field of
  the message, matching the spec's "plus the full signed wire payload
  (opaque byte sequence)".
-/

/-- `2 ^ 32`, the modulus of the Rust `u32` message counter `i`. -/
def u32Mod : Nat := 2 ^ 32

/-- Two's-complement reinterpretation of a `Nat` as a Rust `i32`
(`as i32` on an unsigned value). -/
def toI32 (n : Nat) : Int :=
  if n % 2 ^ 32 < 2 ^ 31 then ((n % 2 ^ 32 : Nat) : Int)
  else ((n % 2 ^ 32 : Nat) : Int) - 2 ^ 32

/-- Two's-complement reinterpretation of a `Nat` as a Rust `i64`
(`as i64` on an unsigned value). -/
def toI64 (n : Nat) : Int :=
  if n % 2 ^ 64 < 2 ^ 63 then ((n % 2 ^ 64 : Nat) : Int)
  else ((n % 2 ^ 64 : Nat) : Int) - 2 ^ 64

/-- Lowercase hexadecimal digit for a value below 16. -/
def hexDigit (n : Nat) : Char :=
  if n < 10 then Char.ofNat (48 + n) else Char.ofNat (87 + n)

/-- Modelled from the spec: `hex_utils::hex_str` lives in the repository's
`hex_utils` module, which is not under `src/`; the spec (section 3) describes
its output as the lowercase hex encoding of the input bytes, two characters
per byte. -/
def hex_str (bytes : List Nat) : String :=
  String.mk (bytes.flatMap fun b => [hexDigit (b / 16 % 16), hexDigit (b % 16)])

/-- `u64::to_be_bytes`: the eight big-endian bytes of a 64-bit value. -/
def u64_to_be_bytes (n : Nat) : List Nat :=
  [n / 2 ^ 56 % 256, n / 2 ^ 48 % 256, n / 2 ^ 40 % 256, n / 2 ^ 32 % 256,
   n / 2 ^ 24 % 256, n / 2 ^ 16 % 256, n / 2 ^ 8 % 256, n % 256]

/-- `UnsignedChannelAnnouncement` fields the persister reads
(`announcement.contents`). -/
structure UnsignedChannelAnnouncement where
  short_channel_id : Nat
  chain_hash : List Nat
  deriving Repr, DecidableEq

/-- A decoded `ChannelAnnouncement`: the contents plus the canonical signed
wire encoding produced by the external `Writeable` implementation
(`announcement.write`), carried as opaque bytes. -/
structure ChannelAnnouncementMsg where
  contents : UnsignedChannelAnnouncement
  signed_bytes : List Nat
  deriving Repr, DecidableEq

/-- `UnsignedChannelUpdate` fields the persister reads (`update.contents`). -/
structure UnsignedChannelUpdate where
  short_channel_id : Nat
  chain_hash : List Nat
  timestamp : Nat
  flags : Nat
  cltv_expiry_delta : Nat
  htlc_minimum_msat : Nat
  fee_base_msat : Nat
  fee_proportional_millionths : Nat
  htlc_maximum_msat : Nat
  deriving Repr, DecidableEq

/-- A decoded `ChannelUpdate`: contents plus the opaque signed wire
encoding (`update.write`). -/
structure ChannelUpdateMsg where
  contents : UnsignedChannelUpdate
  signed_bytes : List Nat
  deriving Repr, DecidableEq

/-- `crate::types::GossipMessage`: the tagged input variant of the actor. -/
inductive GossipMessage where
  | InitialSyncComplete
  | ChannelAnnouncement (announcement : ChannelAnnouncementMsg)
  | ChannelUpdate (update : ChannelUpdateMsg)
  deriving Repr, DecidableEq

/-- A row of the `channel_announcements` table, with the columns bound by
the `INSERT` in the announcement branch of `persist_gossip`. The conflict
key column `short_channel_id` holds the hex string `scid_hex`. -/
structure AnnouncementRow where
  short_channel_id : String
  block_height : Int
  chain_hash : String
  announcement_signed : List Nat
  deriving Repr, DecidableEq

/-- A row of the `channel_updates` table, with the columns bound by the
`INSERT` in the update branch of `persist_gossip`. The conflict key is
`composite_index`. -/
structure UpdateRow where
  composite_index : String
  chain_hash : String
  short_channel_id : String
  timestamp : Int
  channel_flags : Int
  direction : Int
  disable : Bool
  cltv_expiry_delta : Int
  htlc_minimum_msat : Int
  fee_base_msat : Int
  fee_proportional_millionths : Int
  htlc_maximum_msat : Int
  blob_signed : List Nat
  deriving Repr, DecidableEq

/-- `INSERT INTO channel_announcements ... ON CONFLICT (short_channel_id)
DO NOTHING`: append the row unless a row with the same key already exists. -/
def insertAnnouncementRow (rows : List AnnouncementRow) (r : AnnouncementRow) :
    List AnnouncementRow :=
  if rows.any fun x => x.short_channel_id == r.short_channel_id then rows
  else rows ++ [r]

/-- `INSERT INTO channel_updates ... ON CONFLICT (composite_index)
DO NOTHING`: append the row unless a row with the same key already exists. -/
def insertUpdateRow (rows : List UpdateRow) (r : UpdateRow) : List UpdateRow :=
  if rows.any fun x => x.composite_index == r.composite_index then rows
  else rows ++ [r]

/-- The row the announcement branch of `persist_gossip` binds into its
`INSERT` (lines 122-148 of `persistence.rs`): `scid_hex` from the big-endian
bytes, `block_height = (scid >> 5 * 8) as i32`, `chain_hash_hex`, and the
signed wire payload. -/
def announcementRowOf (a : ChannelAnnouncementMsg) : AnnouncementRow :=
  let scid := a.contents.short_channel_id
  let scid_hex := hex_str (u64_to_be_bytes scid)
  let block_height := toI32 (scid >>> (5 * 8))
  let chain_hash_hex := hex_str a.contents.chain_hash
  { short_channel_id := scid_hex
    block_height := block_height
    chain_hash := chain_hash_hex
    announcement_signed := a.signed_bytes }

/-- The row the update branch of `persist_gossip` binds into its `INSERT`
(lines 153-208 of `persistence.rs`): derived `direction = channel_flags & 1`,
`disable = (channel_flags & 2) > 0`, and
`composite_index = format!("{}:{}:{}", scid_hex, timestamp, direction)`. -/
def updateRowOf (u : ChannelUpdateMsg) : UpdateRow :=
  let scid := u.contents.short_channel_id
  let scid_hex := hex_str (u64_to_be_bytes scid)
  let chain_hash_hex := hex_str u.contents.chain_hash
  let timestamp := toI64 u.contents.timestamp
  let channel_flags := toI32 u.contents.flags
  let direction := toI32 (u.contents.flags &&& 1)
  let disable := decide (0 < u.contents.flags &&& 2)
  let composite_index :=
    scid_hex ++ ":" ++ toString timestamp ++ ":" ++ toString direction
  { composite_index := composite_index
    chain_hash := chain_hash_hex
    short_channel_id := scid_hex
    timestamp := timestamp
    channel_flags := channel_flags
    direction := direction
    disable := disable
    cltv_expiry_delta := toI32 u.contents.cltv_expiry_delta
    htlc_minimum_msat := toI64 u.contents.htlc_minimum_msat
    fee_base_msat := toI32 u.contents.fee_base_msat
    fee_proportional_millionths := toI32 u.contents.fee_proportional_millionths
    htlc_maximum_msat := toI64 u.contents.htlc_maximum_msat
    blob_signed := u.signed_bytes }

/-- The mutable state of the `persist_gossip` loop together with the
observable effects a run accumulates. `i` is the wrapped value of the Rust
`u32` counter; `underflowAtDecrement` records whether the `i -= 1` in the
`InitialSyncComplete` branch ever executed with the counter at 0 (the
wrapping subtraction a `u32` cannot perform without underflow);
`sentSignals` counts sends on `server_sync_completion_sender`;
`cacheWrites` counts invocations of `persist_network_graph`. -/
structure PersisterState where
  i : Nat
  persistence_log_threshold : Nat
  server_sync_completion_sent : Bool
  latest_graph_cache_time : Nat
  sentSignals : Nat
  cacheWrites : Nat
  announcements : List AnnouncementRow
  updates : List UpdateRow
  underflowAtDecrement : Bool
  deriving Repr, DecidableEq

/-- The state `persist_gossip` sets up just before entering its `while let`
loop (lines 87-90 of `persistence.rs`); the loop start is the time origin of
`latest_graph_cache_time`. -/
def initialPersisterState : PersisterState :=
  { i := 0
    persistence_log_threshold := 10000
    server_sync_completion_sent := false
    latest_graph_cache_time := 0
    sentSignals := 0
    cacheWrites := 0
    announcements := []
    updates := []
    underflowAtDecrement := false }

/-- One iteration of the `while let` loop of `persist_gossip` on a message
dequeued at monotonic instant `now` (seconds since loop start): increment
the counter, run the ten-minute cache check before dispatch, then dispatch
on the message variant. -/
def persistStep (s : PersisterState) (now : Nat) (msg : GossipMessage) :
    PersisterState :=
  let i1 := (s.i + 1) % u32Mod
  let cacheDue := 600 ≤ now - s.latest_graph_cache_time
  let cacheWrites1 := if cacheDue then s.cacheWrites + 1 else s.cacheWrites
  let cacheTime1 := if cacheDue then now else s.latest_graph_cache_time
  match msg with
  | GossipMessage.InitialSyncComplete =>
      let i2 := (i1 + (u32Mod - 1)) % u32Mod
      let s1 :=
        { s with
          i := i2
          persistence_log_threshold := 50
          cacheWrites := cacheWrites1
          latest_graph_cache_time := cacheTime1
          underflowAtDecrement := s.underflowAtDecrement || decide (i1 = 0) }
      if s1.server_sync_completion_sent then s1
      else
        { s1 with
          server_sync_completion_sent := true
          sentSignals := s1.sentSignals + 1 }
  | GossipMessage.ChannelAnnouncement a =>
      { s with
        i := i1
        cacheWrites := cacheWrites1
        latest_graph_cache_time := cacheTime1
        announcements := insertAnnouncementRow s.announcements (announcementRowOf a) }
  | GossipMessage.ChannelUpdate u =>
      { s with
        i := i1
        cacheWrites := cacheWrites1
        latest_graph_cache_time := cacheTime1
        updates := insertUpdateRow s.updates (updateRowOf u) }

/-- Run the loop from a state over the remaining timed messages. -/
def persistRun (s : PersisterState) (msgs : List (Nat × GossipMessage)) :
    PersisterState :=
  msgs.foldl (fun st tm => persistStep st tm.1 tm.2) s

/-- A whole run of `persist_gossip` after bootstrap: fold the loop body over
the finite stream the producer sent before closing the channel. When the
list is exhausted, `recv()` returns `None` and the loop exits cleanly. -/
def persistGossip (msgs : List (Nat × GossipMessage)) : PersisterState :=
  persistRun initialPersisterState msgs

/-- The number of announcement and update messages (the counted,
non-control messages) in a stream. -/
def countedMessages (msgs : List (Nat × GossipMessage)) : Nat :=
  msgs.countP fun tm =>
    match tm.2 with
    | GossipMessage.InitialSyncComplete => false
    | _ => true

/-- Whether a timed message is the `InitialSyncComplete` control marker. -/
def isSyncComplete (tm : Nat × GossipMessage) : Bool :=
  match tm.2 with
  | GossipMessage.InitialSyncComplete => true
  | _ => false

/-- Observable steps of `persist_network_graph` (lines 217-231 of
`persistence.rs`), in execution order: open the cache file with
create+write+truncate, prune stale channels from the shared graph,
serialize the graph through the buffered writer, flush. -/
inductive CacheEffect where
  | openTruncate
  | removeStaleChannels
  | writeGraph
  | flush
  deriving Repr, DecidableEq

/-- Outcome of one `persist_network_graph` call: the effects that actually
executed, in order, and whether a `.unwrap()` panicked (fatal abort). -/
structure CacheRun where
  effects : List CacheEffect
  panicked : Bool
  deriving Repr, DecidableEq

/-- `persist_network_graph`, with a fault parameter per fallible operation
(`openOk` for `OpenOptions::open`, `writeOk` for `network_graph.write`,
`flushOk` for `writer.flush`; each `false` makes the corresponding
`.unwrap()` panic). The code opens the file with `.create(true)
.write(true).truncate(true)` first, then calls `remove_stale_channels()`,
then writes the graph, then flushes. -/
def persist_network_graph (openOk writeOk flushOk : Bool) : CacheRun :=
  if !openOk then { effects := [], panicked := true }
  else
    let afterPrune := [CacheEffect.openTruncate, CacheEffect.removeStaleChannels]
    if !writeOk then { effects := afterPrune, panicked := true }
    else
      let afterWrite := afterPrune ++ [CacheEffect.writeGraph]
      if !flushOk then { effects := afterWrite, panicked := true }
      else { effects := afterWrite ++ [CacheEffect.flush], panicked := false }

/-- Modelled from the spec: the order section 4.3 states for the cache
operation — "Mutates the shared graph by removing channels considered
stale ... Opens the configured cache file ... Serializes the (now-pruned)
graph ... then explicitly flushes": prune first, then open, then write,
then flush. -/
def specCacheOrder : List CacheEffect :=
  [CacheEffect.removeStaleChannels, CacheEffect.openTruncate,
   CacheEffect.writeGraph, CacheEffect.flush]

/-! ### Basic run lemmas and example inputs -/

/-- Concrete announcement used to instantiate hypotheses at a witness. -/
def exampleAnnouncement : ChannelAnnouncementMsg :=
  { contents := { short_channel_id := 0x0000010000000000
                  chain_hash := List.replicate 32 0 }
    signed_bytes := [1, 0, 7] }

/-- A second announcement with the same `short_channel_id` but a different
signed payload. -/
def exampleAnnouncementB : ChannelAnnouncementMsg :=
  { contents := { short_channel_id := 0x0000010000000000
                  chain_hash := List.replicate 32 0 }
    signed_bytes := [1, 0, 9] }

/-- Concrete update used to instantiate hypotheses at a witness. -/
def exampleUpdate : ChannelUpdateMsg :=
  { contents := { short_channel_id := 0x0000010000000000
                  chain_hash := List.replicate 32 0
                  timestamp := 100
                  flags := 1
                  cltv_expiry_delta := 40
                  htlc_minimum_msat := 1000
                  fee_base_msat := 10
                  fee_proportional_millionths := 100
                  htlc_maximum_msat := 100000 }
    signed_bytes := [1, 2, 10] }

/-- A second update with the same (scid, timestamp, direction) but a
different fee. -/
def exampleUpdateB : ChannelUpdateMsg :=
  { contents := { short_channel_id := 0x0000010000000000
                  chain_hash := List.replicate 32 0
                  timestamp := 100
                  flags := 1
                  cltv_expiry_delta := 40
                  htlc_minimum_msat := 1000
                  fee_base_msat := 20
                  fee_proportional_millionths := 100
                  htlc_maximum_msat := 100000 }
    signed_bytes := [1, 2, 20] }

theorem persistRun_nil (s : PersisterState) : persistRun s [] = s := rfl

theorem persistRun_cons (s : PersisterState) (tm : Nat × GossipMessage)
    (msgs : List (Nat × GossipMessage)) :
    persistRun s (tm :: msgs) = persistRun (persistStep s tm.1 tm.2) msgs := rfl

theorem persistRun_append (s : PersisterState) (l1 l2 : List (Nat × GossipMessage)) :
    persistRun s (l1 ++ l2) = persistRun (persistRun s l1) l2 := by
  simp [persistRun, List.foldl_append]

theorem persistStep_announcement_eq (s : PersisterState) (now : Nat)
    (a : ChannelAnnouncementMsg) :
    persistStep s now (GossipMessage.ChannelAnnouncement a) =
      { s with
        i := (s.i + 1) % u32Mod
        cacheWrites := if 600 ≤ now - s.latest_graph_cache_time then s.cacheWrites + 1
          else s.cacheWrites
        latest_graph_cache_time := if 600 ≤ now - s.latest_graph_cache_time then now
          else s.latest_graph_cache_time
        announcements := insertAnnouncementRow s.announcements (announcementRowOf a) } := rfl

theorem persistStep_update_eq (s : PersisterState) (now : Nat)
    (u : ChannelUpdateMsg) :
    persistStep s now (GossipMessage.ChannelUpdate u) =
      { s with
        i := (s.i + 1) % u32Mod
        cacheWrites := if 600 ≤ now - s.latest_graph_cache_time then s.cacheWrites + 1
          else s.cacheWrites
        latest_graph_cache_time := if 600 ≤ now - s.latest_graph_cache_time then now
          else s.latest_graph_cache_time
        updates := insertUpdateRow s.updates (updateRowOf u) } := rfl

theorem persistStep_sync_eq_of_sent (s : PersisterState) (now : Nat)
    (h : s.server_sync_completion_sent = true) :
    persistStep s now GossipMessage.InitialSyncComplete =
      { s with
        i := ((s.i + 1) % u32Mod + (u32Mod - 1)) % u32Mod
        persistence_log_threshold := 50
        cacheWrites := if 600 ≤ now - s.latest_graph_cache_time then s.cacheWrites + 1
          else s.cacheWrites
        latest_graph_cache_time := if 600 ≤ now - s.latest_graph_cache_time then now
          else s.latest_graph_cache_time
        underflowAtDecrement :=
          s.underflowAtDecrement || decide ((s.i + 1) % u32Mod = 0) } := by
  simp [persistStep, h]

theorem persistStep_sync_eq_of_not_sent (s : PersisterState) (now : Nat)
    (h : s.server_sync_completion_sent = false) :
    persistStep s now GossipMessage.InitialSyncComplete =
      { s with
        i := ((s.i + 1) % u32Mod + (u32Mod - 1)) % u32Mod
        persistence_log_threshold := 50
        server_sync_completion_sent := true
        sentSignals := s.sentSignals + 1
        cacheWrites := if 600 ≤ now - s.latest_graph_cache_time then s.cacheWrites + 1
          else s.cacheWrites
        latest_graph_cache_time := if 600 ≤ now - s.latest_graph_cache_time then now
          else s.latest_graph_cache_time
        underflowAtDecrement :=
          s.underflowAtDecrement || decide ((s.i + 1) % u32Mod = 0) } := by
  simp [persistStep, h]

/-- Reinterpreting a value below `2 ^ 31` as an `i32` is exact. -/
theorem toI32_eq_of_lt (n : Nat) (h : n < 2 ^ 31) : toI32 n = (n : Int) := by
  unfold toI32
  rw [Nat.mod_eq_of_lt (show n < 2 ^ 32 by omega), if_pos h]

/-! ### Claim theorems -/

/-- Claim C4: for every 64-bit `short_channel_id` X, the stored
`block_height` equals `X >> 40` (the top 24 bits), is nonnegative and below
`2 ^ 24` (so the `as i32` conversion is exact and never negative), and
depends only on the top 24 bits of X. -/
theorem announcement_block_height_top_bits (a : ChannelAnnouncementMsg)
    (h : a.contents.short_channel_id < 2 ^ 64) :
    (announcementRowOf a).block_height
        = ((a.contents.short_channel_id >>> 40 : Nat) : Int)
    ∧ 0 ≤ (announcementRowOf a).block_height
    ∧ (announcementRowOf a).block_height < 2 ^ 24
    ∧ (∀ b : ChannelAnnouncementMsg, b.contents.short_channel_id < 2 ^ 64 →
        b.contents.short_channel_id >>> 40 = a.contents.short_channel_id >>> 40 →
        (announcementRowOf b).block_height = (announcementRowOf a).block_height) := by
  have key : ∀ n : Nat, n < 2 ^ 64 → toI32 (n >>> 40) = ((n >>> 40 : Nat) : Int)
      ∧ (n >>> 40) < 2 ^ 24 := by
    intro n hn
    have hdiv : n >>> 40 = n / 2 ^ 40 := Nat.shiftRight_eq_div_pow n 40
    have hlt : n >>> 40 < 2 ^ 24 := by
      rw [hdiv]
      refine Nat.div_lt_of_lt_mul ?_
      calc n < 2 ^ 64 := hn
        _ = 2 ^ 40 * 2 ^ 24 := by norm_num
    exact ⟨toI32_eq_of_lt _ (by omega), hlt⟩
  have hbh : (announcementRowOf a).block_height
      = toI32 (a.contents.short_channel_id >>> 40) := rfl
  obtain ⟨hcast, hlt⟩ := key a.contents.short_channel_id h
  refine ⟨hbh.trans hcast, ?_, ?_, ?_⟩
  · rw [hbh, hcast]; exact Int.ofNat_nonneg _
  · rw [hbh, hcast]
    exact_mod_cast hlt
  · intro b hb heq
    have hbh2 : (announcementRowOf b).block_height
        = toI32 (b.contents.short_channel_id >>> 40) := rfl
    rw [hbh, hbh2, heq]

/-- Witness for C4 at a concrete announcement. -/
theorem announcement_block_height_top_bits_witness :
    exampleAnnouncement.contents.short_channel_id < 2 ^ 64
    ∧ ((announcementRowOf exampleAnnouncement).block_height
          = ((exampleAnnouncement.contents.short_channel_id >>> 40 : Nat) : Int)
        ∧ 0 ≤ (announcementRowOf exampleAnnouncement).block_height
        ∧ (announcementRowOf exampleAnnouncement).block_height < 2 ^ 24
        ∧ (∀ b : ChannelAnnouncementMsg, b.contents.short_channel_id < 2 ^ 64 →
            b.contents.short_channel_id >>> 40
              = exampleAnnouncement.contents.short_channel_id >>> 40 →
            (announcementRowOf b).block_height
              = (announcementRowOf exampleAnnouncement).block_height)) :=
  ⟨by decide, announcement_block_height_top_bits exampleAnnouncement (by decide)⟩

/-- Claim C6: for every 8-bit `channel_flags` value, the persisted update
row satisfies `direction = channel_flags & 1` (equivalently, the low bit
`flags % 2`, so it is 0 or 1), `disable = (channel_flags & 2) != 0`
(equivalently, bit 1 of the flags), `channel_flags` stores the 8-bit value
exactly, and `composite_index` is `scid_hex`, `timestamp` and `direction`
joined by the fixed separator `:`. -/
theorem update_row_derived_fields (u : ChannelUpdateMsg)
    (h : u.contents.flags < 2 ^ 8) :
    (updateRowOf u).direction = ((u.contents.flags % 2 : Nat) : Int)
    ∧ ((updateRowOf u).direction = 0 ∨ (updateRowOf u).direction = 1)
    ∧ ((updateRowOf u).disable = true ↔ u.contents.flags / 2 % 2 = 1)
    ∧ (updateRowOf u).channel_flags = ((u.contents.flags : Nat) : Int)
    ∧ (updateRowOf u).composite_index
        = hex_str (u64_to_be_bytes u.contents.short_channel_id) ++ ":"
          ++ toString (toI64 u.contents.timestamp) ++ ":"
          ++ toString ((u.contents.flags % 2 : Nat) : Int) := by
  have hand1 : u.contents.flags &&& 1 = u.contents.flags % 2 :=
    Nat.and_one_is_mod u.contents.flags
  have hdir : (updateRowOf u).direction = ((u.contents.flags % 2 : Nat) : Int) := by
    show toI32 (u.contents.flags &&& 1) = ((u.contents.flags % 2 : Nat) : Int)
    rw [hand1]
    exact toI32_eq_of_lt _ (by have := Nat.mod_lt u.contents.flags (show 0 < 2 by omega); omega)
  have hand2 : u.contents.flags &&& 2 = (u.contents.flags.testBit 1).toNat * 2 := by
    have := Nat.and_two_pow u.contents.flags 1
    simpa using this
  have htb : u.contents.flags.testBit 1 = decide (u.contents.flags / 2 % 2 = 1) := by
    have := Nat.testBit_to_div_mod (x := u.contents.flags) (i := 1)
    simpa using this
  refine ⟨hdir, ?_, ?_, ?_, ?_⟩
  · rw [hdir]
    have hcase : u.contents.flags % 2 = 0 ∨ u.contents.flags % 2 = 1 := by omega
    rcases hcase with h0 | h1
    · left; rw [h0]; rfl
    · right; rw [h1]; rfl
  · show decide (0 < u.contents.flags &&& 2) = true ↔ u.contents.flags / 2 % 2 = 1
    rw [hand2, htb]
    by_cases hb : u.contents.flags / 2 % 2 = 1
    · simp [hb]
    · simp [hb]
  · exact toI32_eq_of_lt _ (by omega)
  · show hex_str (u64_to_be_bytes u.contents.short_channel_id) ++ ":"
          ++ toString (toI64 u.contents.timestamp) ++ ":"
          ++ toString (toI32 (u.contents.flags &&& 1)) = _
    rw [hand1, toI32_eq_of_lt _
      (by have := Nat.mod_lt u.contents.flags (show 0 < 2 by omega); omega)]

/-- Witness for C6 at a concrete update with flags = 1. -/
theorem update_row_derived_fields_witness :
    exampleUpdate.contents.flags < 2 ^ 8
    ∧ ((updateRowOf exampleUpdate).direction
          = ((exampleUpdate.contents.flags % 2 : Nat) : Int)
        ∧ ((updateRowOf exampleUpdate).direction = 0
            ∨ (updateRowOf exampleUpdate).direction = 1)
        ∧ ((updateRowOf exampleUpdate).disable = true
            ↔ exampleUpdate.contents.flags / 2 % 2 = 1)
        ∧ (updateRowOf exampleUpdate).channel_flags
            = ((exampleUpdate.contents.flags : Nat) : Int)
        ∧ (updateRowOf exampleUpdate).composite_index
            = hex_str (u64_to_be_bytes exampleUpdate.contents.short_channel_id) ++ ":"
              ++ toString (toI64 exampleUpdate.contents.timestamp) ++ ":"
              ++ toString ((exampleUpdate.contents.flags % 2 : Nat) : Int)) :=
  ⟨by decide, update_row_derived_fields exampleUpdate (by decide)⟩

/-- Claim C7 (amended): every invocation of the cache operation performs,
in this order: open the configured cache file with create+truncate, prune
stale channels from the shared graph, serialize the now-pruned graph to the
file, then explicitly flush before reporting success; any open, write or
flush failure panics (fatal), executing no further steps. -/
theorem cache_effects_order :
    persist_network_graph true true true
      = { effects := [CacheEffect.openTruncate, CacheEffect.removeStaleChannels,
                      CacheEffect.writeGraph, CacheEffect.flush]
          panicked := false }
    ∧ (∀ w f : Bool, persist_network_graph false w f = { effects := [], panicked := true })
    ∧ (∀ f : Bool, persist_network_graph true false f
        = { effects := [CacheEffect.openTruncate, CacheEffect.removeStaleChannels]
            panicked := true })
    ∧ persist_network_graph true true false
        = { effects := [CacheEffect.openTruncate, CacheEffect.removeStaleChannels,
                        CacheEffect.writeGraph]
            panicked := true } := by
  decide

/-- Claim C7 counterexample: the successful run of `persist_network_graph`
does not perform its steps in the order the spec states (prune before
open): the code opens and truncates the cache file before pruning. -/
theorem cache_effects_order_spec_mismatch :
    (persist_network_graph true true true).effects ≠ specCacheOrder := by
  decide

/-- Claim C8: a run whose input channel is closed with zero messages sent
exits cleanly with no further action: the final state is the initial state,
with no store rows written, no completion signal sent, and no cache write
performed. -/
theorem empty_stream_no_effects :
    persistGossip [] = initialPersisterState
    ∧ (persistGossip []).announcements = []
    ∧ (persistGossip []).updates = []
    ∧ (persistGossip []).sentSignals = 0
    ∧ (persistGossip []).cacheWrites = 0 :=
  ⟨rfl, rfl, rfl, rfl, rfl⟩

/-- Claim C10: the cache-file overwrite is not atomic: the successful run
truncates the file strictly before serializing the graph, so when the
serialization fails the file has been truncated but no graph bytes were
written, and when the flush fails the file has been truncated and the
buffered write never confirmed — in both cases the call panics after the
previous cache contents are already destroyed. -/
theorem cache_truncates_before_serialization :
    (persist_network_graph true true true).effects
      = [CacheEffect.openTruncate, CacheEffect.removeStaleChannels,
         CacheEffect.writeGraph, CacheEffect.flush]
    ∧ (∀ f : Bool, (persist_network_graph true false f).panicked = true
        ∧ CacheEffect.openTruncate ∈ (persist_network_graph true false f).effects
        ∧ CacheEffect.writeGraph ∉ (persist_network_graph true false f).effects)
    ∧ ((persist_network_graph true true false).panicked = true
        ∧ CacheEffect.openTruncate ∈ (persist_network_graph true true false).effects
        ∧ CacheEffect.flush ∉ (persist_network_graph true true false).effects) := by
  decide

theorem announcementRow_key_eq (a1 a2 : ChannelAnnouncementMsg)
    (h : a1.contents.short_channel_id = a2.contents.short_channel_id) :
    (announcementRowOf a2).short_channel_id = (announcementRowOf a1).short_channel_id := by
  show hex_str (u64_to_be_bytes a2.contents.short_channel_id)
      = hex_str (u64_to_be_bytes a1.contents.short_channel_id)
  rw [h]

theorem updateRow_key_eq (u1 u2 : ChannelUpdateMsg)
    (hscid : u1.contents.short_channel_id = u2.contents.short_channel_id)
    (hts : u1.contents.timestamp = u2.contents.timestamp)
    (hdir : u1.contents.flags &&& 1 = u2.contents.flags &&& 1) :
    (updateRowOf u2).composite_index = (updateRowOf u1).composite_index := by
  show hex_str (u64_to_be_bytes u2.contents.short_channel_id) ++ ":"
        ++ toString (toI64 u2.contents.timestamp) ++ ":"
        ++ toString (toI32 (u2.contents.flags &&& 1))
      = hex_str (u64_to_be_bytes u1.contents.short_channel_id) ++ ":"
        ++ toString (toI64 u1.contents.timestamp) ++ ":"
        ++ toString (toI32 (u1.contents.flags &&& 1))
  rw [hscid, hts, hdir]

theorem insertAnnouncementRow_nil (r : AnnouncementRow) :
    insertAnnouncementRow [] r = [r] := rfl

theorem insertUpdateRow_nil (r : UpdateRow) : insertUpdateRow [] r = [r] := rfl

theorem insertAnnouncementRow_conflict (r1 r2 : AnnouncementRow)
    (h : r2.short_channel_id = r1.short_channel_id) :
    insertAnnouncementRow [r1] r2 = [r1] := by
  simp [insertAnnouncementRow, h]

theorem insertUpdateRow_conflict (r1 r2 : UpdateRow)
    (h : r2.composite_index = r1.composite_index) :
    insertUpdateRow [r1] r2 = [r1] := by
  simp [insertUpdateRow, h]

/-- Claim C3: inserting two announcements with the same `short_channel_id`
but different payloads leaves exactly one `channel_announcements` row, equal
to the first-inserted one; inserting two updates with identical
(scid, timestamp, direction) but different fee/expiry fields leaves exactly
one `channel_updates` row, equal to the first-inserted one; and the
conflict-ignoring inserts never overwrite an existing row (they either
leave the table unchanged or append). -/
theorem insert_conflict_first_write_wins :
    (∀ (a1 a2 : ChannelAnnouncementMsg) (t1 t2 : Nat),
      a1.contents.short_channel_id = a2.contents.short_channel_id →
      a1.signed_bytes ≠ a2.signed_bytes →
      (persistGossip [(t1, GossipMessage.ChannelAnnouncement a1),
                      (t2, GossipMessage.ChannelAnnouncement a2)]).announcements
        = [announcementRowOf a1])
    ∧ (∀ (u1 u2 : ChannelUpdateMsg) (t1 t2 : Nat),
      u1.contents.short_channel_id = u2.contents.short_channel_id →
      u1.contents.timestamp = u2.contents.timestamp →
      u1.contents.flags &&& 1 = u2.contents.flags &&& 1 →
      (u1.contents.fee_base_msat ≠ u2.contents.fee_base_msat
        ∨ u1.contents.fee_proportional_millionths
            ≠ u2.contents.fee_proportional_millionths
        ∨ u1.contents.cltv_expiry_delta ≠ u2.contents.cltv_expiry_delta
        ∨ u1.contents.htlc_minimum_msat ≠ u2.contents.htlc_minimum_msat
        ∨ u1.contents.htlc_maximum_msat ≠ u2.contents.htlc_maximum_msat) →
      (persistGossip [(t1, GossipMessage.ChannelUpdate u1),
                      (t2, GossipMessage.ChannelUpdate u2)]).updates
        = [updateRowOf u1])
    ∧ (∀ (rows : List AnnouncementRow) (r : AnnouncementRow),
        insertAnnouncementRow rows r = rows
          ∨ insertAnnouncementRow rows r = rows ++ [r])
    ∧ (∀ (rows : List UpdateRow) (r : UpdateRow),
        insertUpdateRow rows r = rows ∨ insertUpdateRow rows r = rows ++ [r]) := by
  refine ⟨?_, ?_, ?_, ?_⟩
  · intro a1 a2 t1 t2 hscid _
    have hrun : (persistGossip [(t1, GossipMessage.ChannelAnnouncement a1),
        (t2, GossipMessage.ChannelAnnouncement a2)]).announcements
        = insertAnnouncementRow (insertAnnouncementRow [] (announcementRowOf a1))
            (announcementRowOf a2) := rfl
    rw [hrun, insertAnnouncementRow_nil,
      insertAnnouncementRow_conflict _ _ (announcementRow_key_eq a1 a2 hscid)]
  · intro u1 u2 t1 t2 hscid hts hdir _
    have hrun : (persistGossip [(t1, GossipMessage.ChannelUpdate u1),
        (t2, GossipMessage.ChannelUpdate u2)]).updates
        = insertUpdateRow (insertUpdateRow [] (updateRowOf u1)) (updateRowOf u2) := rfl
    rw [hrun, insertUpdateRow_nil,
      insertUpdateRow_conflict _ _ (updateRow_key_eq u1 u2 hscid hts hdir)]
  · intro rows r
    by_cases hc : rows.any fun x => x.short_channel_id == r.short_channel_id
    · left; simp [insertAnnouncementRow, hc]
    · right; simp [insertAnnouncementRow, hc]
  · intro rows r
    by_cases hc : rows.any fun x => x.composite_index == r.composite_index
    · left; simp [insertUpdateRow, hc]
    · right; simp [insertUpdateRow, hc]

/-- Witness for C3 at concrete conflicting announcements and updates. -/
theorem insert_conflict_first_write_wins_witness :
    (exampleAnnouncement.contents.short_channel_id
        = exampleAnnouncementB.contents.short_channel_id
      ∧ exampleAnnouncement.signed_bytes ≠ exampleAnnouncementB.signed_bytes
      ∧ (persistGossip [(0, GossipMessage.ChannelAnnouncement exampleAnnouncement),
          (0, GossipMessage.ChannelAnnouncement exampleAnnouncementB)]).announcements
        = [announcementRowOf exampleAnnouncement])
    ∧ (exampleUpdate.contents.short_channel_id
        = exampleUpdateB.contents.short_channel_id
      ∧ exampleUpdate.contents.timestamp = exampleUpdateB.contents.timestamp
      ∧ exampleUpdate.contents.flags &&& 1 = exampleUpdateB.contents.flags &&& 1
      ∧ exampleUpdate.contents.fee_base_msat ≠ exampleUpdateB.contents.fee_base_msat
      ∧ (persistGossip [(0, GossipMessage.ChannelUpdate exampleUpdate),
          (0, GossipMessage.ChannelUpdate exampleUpdateB)]).updates
        = [updateRowOf exampleUpdate]) :=
  ⟨⟨by decide, by decide,
    insert_conflict_first_write_wins.1 exampleAnnouncement exampleAnnouncementB 0 0
      (by decide) (by decide)⟩,
   ⟨by decide, by decide, by decide, by decide,
    insert_conflict_first_write_wins.2.1 exampleUpdate exampleUpdateB 0 0
      (by decide) (by decide) (by decide) (Or.inl (by decide))⟩⟩

theorem persistStep_signals_of_sent (s : PersisterState) (now : Nat)
    (msg : GossipMessage) (h : s.server_sync_completion_sent = true) :
    (persistStep s now msg).server_sync_completion_sent = true
    ∧ (persistStep s now msg).sentSignals = s.sentSignals := by
  cases msg with
  | InitialSyncComplete => rw [persistStep_sync_eq_of_sent s now h]; exact ⟨h, rfl⟩
  | ChannelAnnouncement a => rw [persistStep_announcement_eq]; exact ⟨h, rfl⟩
  | ChannelUpdate u => rw [persistStep_update_eq]; exact ⟨h, rfl⟩

theorem persistRun_signals_of_sent (msgs : List (Nat × GossipMessage)) :
    ∀ s : PersisterState, s.server_sync_completion_sent = true →
    (persistRun s msgs).server_sync_completion_sent = true
    ∧ (persistRun s msgs).sentSignals = s.sentSignals := by
  induction msgs with
  | nil => intro s h; exact ⟨h, rfl⟩
  | cons tm rest ih =>
    intro s h
    rw [persistRun_cons]
    obtain ⟨h1, h2⟩ := persistStep_signals_of_sent s tm.1 tm.2 h
    obtain ⟨h3, h4⟩ := ih _ h1
    exact ⟨h3, h4.trans h2⟩

theorem persistStep_signals_not_sync (s : PersisterState)
    (tm : Nat × GossipMessage) (h : isSyncComplete tm = false) :
    (persistStep s tm.1 tm.2).server_sync_completion_sent
        = s.server_sync_completion_sent
    ∧ (persistStep s tm.1 tm.2).sentSignals = s.sentSignals := by
  obtain ⟨now, msg⟩ := tm
  cases msg with
  | InitialSyncComplete => simp [isSyncComplete] at h
  | ChannelAnnouncement a => rw [persistStep_announcement_eq]; exact ⟨rfl, rfl⟩
  | ChannelUpdate u => rw [persistStep_update_eq]; exact ⟨rfl, rfl⟩

theorem persistRun_signals_no_sync (msgs : List (Nat × GossipMessage)) :
    ∀ s : PersisterState, (∀ tm ∈ msgs, isSyncComplete tm = false) →
    (persistRun s msgs).server_sync_completion_sent
        = s.server_sync_completion_sent
    ∧ (persistRun s msgs).sentSignals = s.sentSignals := by
  induction msgs with
  | nil => intro s _; exact ⟨rfl, rfl⟩
  | cons tm rest ih =>
    intro s h
    rw [persistRun_cons]
    obtain ⟨h1, h2⟩ :=
      persistStep_signals_not_sync s tm (h tm (List.mem_cons_self tm rest))
    obtain ⟨h3, h4⟩ := ih _ fun x hx => h x (List.mem_cons_of_mem tm hx)
    exact ⟨h3.trans h1, h4.trans h2⟩

theorem persistStep_signals_first_sync (s : PersisterState) (now : Nat)
    (h : s.server_sync_completion_sent = false) :
    (persistStep s now GossipMessage.InitialSyncComplete).server_sync_completion_sent
        = true
    ∧ (persistStep s now GossipMessage.InitialSyncComplete).sentSignals
        = s.sentSignals + 1 := by
  rw [persistStep_sync_eq_of_not_sent s now h]; exact ⟨rfl, rfl⟩

/-- Claim C1: for every input stream holding at least one `SyncComplete`
marker, the completion signal is sent exactly once, while processing the
first marker: no signal is sent before it, exactly one signal has been sent
right after it, and the count stays 1 over the whole rest of the stream no
matter how many further `SyncComplete` markers it holds. -/
theorem sync_signal_sent_exactly_once (pre post : List (Nat × GossipMessage))
    (t : Nat) (hpre : ∀ tm ∈ pre, isSyncComplete tm = false) :
    (persistRun initialPersisterState pre).sentSignals = 0
    ∧ (persistRun initialPersisterState
        (pre ++ [(t, GossipMessage.InitialSyncComplete)])).sentSignals = 1
    ∧ (persistGossip
        (pre ++ (t, GossipMessage.InitialSyncComplete) :: post)).sentSignals = 1 := by
  obtain ⟨hs, hn⟩ := persistRun_signals_no_sync pre initialPersisterState hpre
  have h0 : (persistRun initialPersisterState pre).sentSignals = 0 := hn
  have hsent : (persistRun initialPersisterState pre).server_sync_completion_sent
      = false := hs
  obtain ⟨hst, hsg⟩ := persistStep_signals_first_sync _ t hsent
  have hone : (persistStep (persistRun initialPersisterState pre) t
      GossipMessage.InitialSyncComplete).sentSignals = 1 := by rw [hsg, h0]
  refine ⟨h0, ?_, ?_⟩
  · rw [persistRun_append, persistRun_cons, persistRun_nil]
    exact hone
  · have hsplit : persistGossip
        (pre ++ (t, GossipMessage.InitialSyncComplete) :: post)
        = persistRun (persistStep (persistRun initialPersisterState pre) t
            GossipMessage.InitialSyncComplete) post := by
      show persistRun initialPersisterState _ = _
      rw [show (t, GossipMessage.InitialSyncComplete) :: post
            = [(t, GossipMessage.InitialSyncComplete)] ++ post from rfl,
        ← List.append_assoc, persistRun_append, persistRun_append,
        persistRun_cons, persistRun_nil]
    rw [hsplit]
    obtain ⟨_, h4⟩ := persistRun_signals_of_sent post _ hst
    rw [h4]
    exact hone

/-- Witness for C1: one announcement, then three `SyncComplete` markers. -/
theorem sync_signal_sent_exactly_once_witness :
    (∀ tm ∈ [((0:Nat), GossipMessage.ChannelAnnouncement exampleAnnouncement)],
        isSyncComplete tm = false)
    ∧ ((persistRun initialPersisterState
          [((0:Nat), GossipMessage.ChannelAnnouncement exampleAnnouncement)]).sentSignals = 0
      ∧ (persistRun initialPersisterState
          ([((0:Nat), GossipMessage.ChannelAnnouncement exampleAnnouncement)]
            ++ [(0, GossipMessage.InitialSyncComplete)])).sentSignals = 1
      ∧ (persistGossip
          ([((0:Nat), GossipMessage.ChannelAnnouncement exampleAnnouncement)]
            ++ (0, GossipMessage.InitialSyncComplete)
              :: [((0:Nat), GossipMessage.InitialSyncComplete),
                  (0, GossipMessage.InitialSyncComplete)])).sentSignals = 1) :=
  ⟨by decide,
   sync_signal_sent_exactly_once
     [((0:Nat), GossipMessage.ChannelAnnouncement exampleAnnouncement)]
     [((0:Nat), GossipMessage.InitialSyncComplete),
      (0, GossipMessage.InitialSyncComplete)] 0 (by decide)⟩

theorem persistStep_cacheWrites_eq (s : PersisterState) (now : Nat)
    (msg : GossipMessage) :
    (persistStep s now msg).cacheWrites
      = if 600 ≤ now - s.latest_graph_cache_time then s.cacheWrites + 1
        else s.cacheWrites := by
  cases msg with
  | InitialSyncComplete =>
    cases hsent : s.server_sync_completion_sent with
    | false => rw [persistStep_sync_eq_of_not_sent s now hsent]
    | true => rw [persistStep_sync_eq_of_sent s now hsent]
  | ChannelAnnouncement a => rw [persistStep_announcement_eq]
  | ChannelUpdate u => rw [persistStep_update_eq]

theorem persistStep_latest_eq (s : PersisterState) (now : Nat)
    (msg : GossipMessage) :
    (persistStep s now msg).latest_graph_cache_time
      = if 600 ≤ now - s.latest_graph_cache_time then now
        else s.latest_graph_cache_time := by
  cases msg with
  | InitialSyncComplete =>
    cases hsent : s.server_sync_completion_sent with
    | false => rw [persistStep_sync_eq_of_not_sent s now hsent]
    | true => rw [persistStep_sync_eq_of_sent s now hsent]
  | ChannelAnnouncement a => rw [persistStep_announcement_eq]
  | ChannelUpdate u => rw [persistStep_update_eq]

theorem persistStep_cacheWrites_mono (s : PersisterState) (now : Nat)
    (msg : GossipMessage) :
    s.cacheWrites ≤ (persistStep s now msg).cacheWrites := by
  rw [persistStep_cacheWrites_eq]
  split <;> omega

theorem persistRun_cacheWrites_mono (msgs : List (Nat × GossipMessage)) :
    ∀ s : PersisterState, s.cacheWrites ≤ (persistRun s msgs).cacheWrites := by
  induction msgs with
  | nil => intro s; exact Nat.le_refl _
  | cons tm rest ih =>
    intro s
    rw [persistRun_cons]
    exact Nat.le_trans (persistStep_cacheWrites_mono s tm.1 tm.2) (ih _)

theorem persistStep_cache_zero (s : PersisterState) (now : Nat)
    (msg : GossipMessage) (h : s.cacheWrites = 0 → s.latest_graph_cache_time = 0)
    (hc : (persistStep s now msg).cacheWrites = 0) :
    (persistStep s now msg).latest_graph_cache_time = 0 := by
  rw [persistStep_cacheWrites_eq] at hc
  rw [persistStep_latest_eq]
  by_cases hdue : 600 ≤ now - s.latest_graph_cache_time
  · rw [if_pos hdue] at hc; omega
  · rw [if_neg hdue] at hc
    rw [if_neg hdue]
    exact h hc

theorem persistRun_cache_zero (msgs : List (Nat × GossipMessage)) :
    ∀ s : PersisterState, (s.cacheWrites = 0 → s.latest_graph_cache_time = 0) →
    (persistRun s msgs).cacheWrites = 0 →
    (persistRun s msgs).latest_graph_cache_time = 0 := by
  induction msgs with
  | nil => intro s h hc; exact h hc
  | cons tm rest ih =>
    intro s h hc
    rw [persistRun_cons] at hc ⊢
    exact ih _ (persistStep_cache_zero s tm.1 tm.2 h) hc

theorem persistRun_cache_stays_zero (msgs : List (Nat × GossipMessage)) :
    ∀ s : PersisterState, s.cacheWrites = 0 → s.latest_graph_cache_time = 0 →
    (∀ tm ∈ msgs, tm.1 < 600) → (persistRun s msgs).cacheWrites = 0 := by
  induction msgs with
  | nil => intro s h _ _; exact h
  | cons tm rest ih =>
    intro s h hl ht
    rw [persistRun_cons]
    have hnotdue : ¬ 600 ≤ tm.1 - s.latest_graph_cache_time := by
      have := ht tm (List.mem_cons_self tm rest)
      omega
    have h1 : (persistStep s tm.1 tm.2).cacheWrites = 0 := by
      rw [persistStep_cacheWrites_eq, if_neg hnotdue]; exact h
    have h2 : (persistStep s tm.1 tm.2).latest_graph_cache_time = 0 := by
      rw [persistStep_latest_eq, if_neg hnotdue]; exact hl
    exact ih _ h1 h2 fun x hx => ht x (List.mem_cons_of_mem tm hx)

/-- Claim C2: the ten-minute elapsed check runs before dispatch of every
message, whatever its variant: a step whose dequeue instant is at least 600
seconds past the last cache write invokes the cache write and resets the
timer. Consequently a run whose messages extend at least 600 seconds past
the loop start (the monotonic origin of the cache timer) invokes the cache
write at least once, and a run whose every message arrives strictly within
the first 600 seconds never invokes it. -/
theorem cache_write_elapsed_trigger :
    (∀ (s : PersisterState) (now : Nat) (msg : GossipMessage),
      600 ≤ now - s.latest_graph_cache_time →
      (persistStep s now msg).cacheWrites = s.cacheWrites + 1
        ∧ (persistStep s now msg).latest_graph_cache_time = now)
    ∧ (∀ msgs : List (Nat × GossipMessage), (∃ tm ∈ msgs, 600 ≤ tm.1) →
        1 ≤ (persistGossip msgs).cacheWrites)
    ∧ (∀ msgs : List (Nat × GossipMessage), (∀ tm ∈ msgs, tm.1 < 600) →
        (persistGossip msgs).cacheWrites = 0) := by
  refine ⟨?_, ?_, ?_⟩
  · intro s now msg h
    rw [persistStep_cacheWrites_eq, persistStep_latest_eq, if_pos h, if_pos h]
    exact ⟨rfl, rfl⟩
  · intro msgs hmem
    obtain ⟨tm, hmem, ht⟩ := hmem
    obtain ⟨l1, l2, rfl⟩ := List.append_of_mem hmem
    rw [show persistGossip (l1 ++ tm :: l2)
        = persistRun (persistStep (persistRun initialPersisterState l1) tm.1 tm.2) l2 by
      rw [persistGossip, persistRun_append, persistRun_cons]]
    by_cases h1 : (persistRun initialPersisterState l1).cacheWrites = 0
    · have hl : (persistRun initialPersisterState l1).latest_graph_cache_time = 0 :=
        persistRun_cache_zero l1 initialPersisterState (fun _ => rfl) h1
      have hdue : 600 ≤ tm.1
          - (persistRun initialPersisterState l1).latest_graph_cache_time := by
        rw [hl]; omega
      have hstep : (persistStep (persistRun initialPersisterState l1) tm.1 tm.2).cacheWrites
          = (persistRun initialPersisterState l1).cacheWrites + 1 := by
        rw [persistStep_cacheWrites_eq, if_pos hdue]
      have := persistRun_cacheWrites_mono l2
        (persistStep (persistRun initialPersisterState l1) tm.1 tm.2)
      omega
    · have hstep := persistStep_cacheWrites_mono
        (persistRun initialPersisterState l1) tm.1 tm.2
      have := persistRun_cacheWrites_mono l2
        (persistStep (persistRun initialPersisterState l1) tm.1 tm.2)
      omega
  · intro msgs ht
    exact persistRun_cache_stays_zero msgs initialPersisterState rfl rfl ht

/-- Witness for C2: a step at 600 seconds triggers the cache write; a
one-message run at 600 seconds has a cache write; a one-message run at 0
seconds has none. -/
theorem cache_write_elapsed_trigger_witness :
    (600 ≤ 600 - initialPersisterState.latest_graph_cache_time
      ∧ ((persistStep initialPersisterState 600
            GossipMessage.InitialSyncComplete).cacheWrites
          = initialPersisterState.cacheWrites + 1
        ∧ (persistStep initialPersisterState 600
            GossipMessage.InitialSyncComplete).latest_graph_cache_time = 600))
    ∧ ((∃ tm ∈ [((600:Nat), GossipMessage.InitialSyncComplete)], 600 ≤ tm.1)
      ∧ 1 ≤ (persistGossip [((600:Nat), GossipMessage.InitialSyncComplete)]).cacheWrites)
    ∧ ((∀ tm ∈ [((0:Nat), GossipMessage.InitialSyncComplete)], tm.1 < 600)
      ∧ (persistGossip [((0:Nat), GossipMessage.InitialSyncComplete)]).cacheWrites = 0) :=
  ⟨⟨by decide,
    cache_write_elapsed_trigger.1 initialPersisterState 600
      GossipMessage.InitialSyncComplete (by decide)⟩,
   ⟨⟨(600, GossipMessage.InitialSyncComplete), by decide, by decide⟩,
    cache_write_elapsed_trigger.2.1 [((600:Nat), GossipMessage.InitialSyncComplete)]
      ⟨(600, GossipMessage.InitialSyncComplete), by decide, by decide⟩⟩,
   ⟨by decide,
    cache_write_elapsed_trigger.2.2 [((0:Nat), GossipMessage.InitialSyncComplete)]
      (by decide)⟩⟩

theorem persistStep_i_announcement (s : PersisterState) (now : Nat)
    (a : ChannelAnnouncementMsg) :
    (persistStep s now (GossipMessage.ChannelAnnouncement a)).i
      = (s.i + 1) % u32Mod := rfl

theorem persistStep_i_update (s : PersisterState) (now : Nat)
    (u : ChannelUpdateMsg) :
    (persistStep s now (GossipMessage.ChannelUpdate u)).i
      = (s.i + 1) % u32Mod := rfl

theorem persistStep_i_sync (s : PersisterState) (now : Nat) :
    (persistStep s now GossipMessage.InitialSyncComplete).i
      = ((s.i + 1) % u32Mod + (u32Mod - 1)) % u32Mod := by
  cases hsent : s.server_sync_completion_sent with
  | false => rw [persistStep_sync_eq_of_not_sent s now hsent]
  | true => rw [persistStep_sync_eq_of_sent s now hsent]

theorem persistStep_i_sync_net (s : PersisterState) (now : Nat) :
    (persistStep s now GossipMessage.InitialSyncComplete).i = s.i % u32Mod := by
  rw [persistStep_i_sync]
  have hW : u32Mod = 4294967296 := by norm_num [u32Mod]
  rw [hW]
  omega

theorem countedMessages_cons_sync (t : Nat) (msgs : List (Nat × GossipMessage)) :
    countedMessages ((t, GossipMessage.InitialSyncComplete) :: msgs)
      = countedMessages msgs := by
  simp [countedMessages, List.countP_cons]

theorem countedMessages_cons_announcement (t : Nat) (a : ChannelAnnouncementMsg)
    (msgs : List (Nat × GossipMessage)) :
    countedMessages ((t, GossipMessage.ChannelAnnouncement a) :: msgs)
      = countedMessages msgs + 1 := by
  simp [countedMessages, List.countP_cons]

theorem countedMessages_cons_update (t : Nat) (u : ChannelUpdateMsg)
    (msgs : List (Nat × GossipMessage)) :
    countedMessages ((t, GossipMessage.ChannelUpdate u) :: msgs)
      = countedMessages msgs + 1 := by
  simp [countedMessages, List.countP_cons]

theorem persistRun_i (msgs : List (Nat × GossipMessage)) :
    ∀ s : PersisterState, s.i < u32Mod →
    (persistRun s msgs).i = (s.i + countedMessages msgs) % u32Mod := by
  induction msgs with
  | nil =>
    intro s h
    rw [persistRun_nil]
    show s.i = (s.i + countedMessages []) % u32Mod
    rw [show countedMessages [] = 0 from rfl, Nat.add_zero, Nat.mod_eq_of_lt h]
  | cons tm rest ih =>
    obtain ⟨t, m⟩ := tm
    intro s h
    have hW : 0 < u32Mod := by norm_num [u32Mod]
    rw [persistRun_cons]
    cases m with
    | InitialSyncComplete =>
      have hstep : (persistStep s t GossipMessage.InitialSyncComplete).i
          = s.i % u32Mod := persistStep_i_sync_net s t
      have hlt : (persistStep s t GossipMessage.InitialSyncComplete).i < u32Mod := by
        rw [hstep]; exact Nat.mod_lt _ hW
      rw [ih _ hlt, hstep, countedMessages_cons_sync, Nat.mod_add_mod]
    | ChannelAnnouncement a =>
      have hstep : (persistStep s t (GossipMessage.ChannelAnnouncement a)).i
          = (s.i + 1) % u32Mod := rfl
      have hlt : (persistStep s t (GossipMessage.ChannelAnnouncement a)).i < u32Mod := by
        rw [hstep]; exact Nat.mod_lt _ hW
      rw [ih _ hlt, hstep, countedMessages_cons_announcement, Nat.mod_add_mod]
      congr 1
      omega
    | ChannelUpdate u =>
      have hstep : (persistStep s t (GossipMessage.ChannelUpdate u)).i
          = (s.i + 1) % u32Mod := rfl
      have hlt : (persistStep s t (GossipMessage.ChannelUpdate u)).i < u32Mod := by
        rw [hstep]; exact Nat.mod_lt _ hW
      rw [ih _ hlt, hstep, countedMessages_cons_update, Nat.mod_add_mod]
      congr 1
      omega

/-- Claim C5 (amended): after each prefix of the input stream the u32
counter equals the number of announcement/update messages processed so far
reduced modulo `2 ^ 32` — exactly equal whenever that number is below
`2 ^ 32` — because a `SyncComplete` message leaves the counter net
unchanged and every announcement or update message advances it by exactly 1
modulo `2 ^ 32`, regardless of whether the resulting store row was a
duplicate. -/
theorem persisted_counter_counts_messages :
    (∀ msgs : List (Nat × GossipMessage),
      (persistGossip msgs).i = countedMessages msgs % u32Mod)
    ∧ (∀ msgs : List (Nat × GossipMessage), countedMessages msgs < u32Mod →
        (persistGossip msgs).i = countedMessages msgs)
    ∧ (∀ (s : PersisterState) (now : Nat), s.i < u32Mod →
        (persistStep s now GossipMessage.InitialSyncComplete).i = s.i)
    ∧ (∀ (s : PersisterState) (now : Nat) (a : ChannelAnnouncementMsg),
        (persistStep s now (GossipMessage.ChannelAnnouncement a)).i
          = (s.i + 1) % u32Mod)
    ∧ (∀ (s : PersisterState) (now : Nat) (u : ChannelUpdateMsg),
        (persistStep s now (GossipMessage.ChannelUpdate u)).i
          = (s.i + 1) % u32Mod) := by
  have hinit : initialPersisterState.i < u32Mod := by norm_num [initialPersisterState, u32Mod]
  have hmain : ∀ msgs : List (Nat × GossipMessage),
      (persistGossip msgs).i = countedMessages msgs % u32Mod := by
    intro msgs
    rw [persistGossip, persistRun_i msgs initialPersisterState hinit,
      show initialPersisterState.i = 0 from rfl, Nat.zero_add]
  refine ⟨hmain, ?_, ?_, ?_, ?_⟩
  · intro msgs h
    rw [hmain msgs, Nat.mod_eq_of_lt h]
  · intro s now h
    rw [persistStep_i_sync_net, Nat.mod_eq_of_lt h]
  · intro s now a
    exact persistStep_i_announcement s now a
  · intro s now u
    exact persistStep_i_update s now u

/-- Witness for C5 at a short concrete stream (one announcement, one
`SyncComplete`, one update) and a concrete sync step. -/
theorem persisted_counter_counts_messages_witness :
    (countedMessages [((0:Nat), GossipMessage.ChannelAnnouncement exampleAnnouncement),
        (0, GossipMessage.InitialSyncComplete),
        (0, GossipMessage.ChannelUpdate exampleUpdate)] < u32Mod
      ∧ (persistGossip [((0:Nat), GossipMessage.ChannelAnnouncement exampleAnnouncement),
          (0, GossipMessage.InitialSyncComplete),
          (0, GossipMessage.ChannelUpdate exampleUpdate)]).i
        = countedMessages [((0:Nat), GossipMessage.ChannelAnnouncement exampleAnnouncement),
            (0, GossipMessage.InitialSyncComplete),
            (0, GossipMessage.ChannelUpdate exampleUpdate)])
    ∧ (initialPersisterState.i < u32Mod
      ∧ (persistStep initialPersisterState 0 GossipMessage.InitialSyncComplete).i
        = initialPersisterState.i) :=
  ⟨⟨by decide,
    persisted_counter_counts_messages.2.1
      [((0:Nat), GossipMessage.ChannelAnnouncement exampleAnnouncement),
       (0, GossipMessage.InitialSyncComplete),
       (0, GossipMessage.ChannelUpdate exampleUpdate)] (by decide)⟩,
   ⟨by decide,
    persisted_counter_counts_messages.2.2.1 initialPersisterState 0 (by decide)⟩⟩

/-- Claim C5 counterexample: on a stream of `2 ^ 32` announcement messages
the u32 counter has wrapped to 0 and does not equal the number of
announcement/update messages processed. -/
theorem persisted_counter_wrap_counterexample :
    (persistGossip (List.replicate u32Mod
        (0, GossipMessage.ChannelAnnouncement exampleAnnouncement))).i
      ≠ countedMessages (List.replicate u32Mod
        (0, GossipMessage.ChannelAnnouncement exampleAnnouncement)) := by
  have hcount : countedMessages (List.replicate u32Mod
      (0, GossipMessage.ChannelAnnouncement exampleAnnouncement)) = u32Mod := by
    unfold countedMessages
    rw [List.countP_eq_length.mpr, List.length_replicate]
    intro x hx
    rw [List.eq_of_mem_replicate hx]
  have hinit : initialPersisterState.i < u32Mod := by
    norm_num [initialPersisterState, u32Mod]
  have hi : (persistGossip (List.replicate u32Mod
      (0, GossipMessage.ChannelAnnouncement exampleAnnouncement))).i = 0 := by
    rw [persistGossip, persistRun_i _ initialPersisterState hinit, hcount]
    show (initialPersisterState.i + u32Mod) % u32Mod = 0
    rw [show initialPersisterState.i = 0 from rfl, Nat.zero_add, Nat.mod_self]
  rw [hi, hcount]
  norm_num [u32Mod]

theorem persistStep_underflow_sync (s : PersisterState) (now : Nat) :
    (persistStep s now GossipMessage.InitialSyncComplete).underflowAtDecrement
      = (s.underflowAtDecrement || decide ((s.i + 1) % u32Mod = 0)) := by
  cases hsent : s.server_sync_completion_sent with
  | false => rw [persistStep_sync_eq_of_not_sent s now hsent]
  | true => rw [persistStep_sync_eq_of_sent s now hsent]

theorem persistStep_underflow_announcement (s : PersisterState) (now : Nat)
    (a : ChannelAnnouncementMsg) :
    (persistStep s now (GossipMessage.ChannelAnnouncement a)).underflowAtDecrement
      = s.underflowAtDecrement := rfl

theorem persistStep_underflow_update (s : PersisterState) (now : Nat)
    (u : ChannelUpdateMsg) :
    (persistStep s now (GossipMessage.ChannelUpdate u)).underflowAtDecrement
      = s.underflowAtDecrement := rfl

theorem persistRun_underflow_false (msgs : List (Nat × GossipMessage)) :
    ∀ s : PersisterState, s.underflowAtDecrement = false →
    s.i + countedMessages msgs + 1 < u32Mod →
    (persistRun s msgs).underflowAtDecrement = false := by
  induction msgs with
  | nil => intro s h _; exact h
  | cons tm rest ih =>
    obtain ⟨t, m⟩ := tm
    intro s h hbound
    rw [persistRun_cons]
    cases m with
    | InitialSyncComplete =>
      rw [countedMessages_cons_sync] at hbound
      have hne : s.i + 1 ≠ 0 := by omega
      have h1 : (s.i + 1) % u32Mod = s.i + 1 := Nat.mod_eq_of_lt (by omega)
      have hu : (persistStep s t
          GossipMessage.InitialSyncComplete).underflowAtDecrement = false := by
        rw [persistStep_underflow_sync, h, h1]
        simp [hne]
      have hi : (persistStep s t GossipMessage.InitialSyncComplete).i = s.i := by
        rw [persistStep_i_sync_net]
        exact Nat.mod_eq_of_lt (by omega)
      apply ih _ hu
      rw [hi]
      omega
    | ChannelAnnouncement a =>
      rw [countedMessages_cons_announcement] at hbound
      have hi : (persistStep s t (GossipMessage.ChannelAnnouncement a)).i
          = s.i + 1 := by
        rw [persistStep_i_announcement]
        exact Nat.mod_eq_of_lt (by omega)
      apply ih _ (by rw [persistStep_underflow_announcement]; exact h)
      rw [hi]
      omega
    | ChannelUpdate u =>
      rw [countedMessages_cons_update] at hbound
      have hi : (persistStep s t (GossipMessage.ChannelUpdate u)).i = s.i + 1 := by
        rw [persistStep_i_update]
        exact Nat.mod_eq_of_lt (by omega)
      apply ih _ (by rw [persistStep_underflow_update]; exact h)
      rw [hi]
      omega

/-- Claim C9 (amended): for every input stream containing fewer than
`2 ^ 32 - 1` announcement/update messages — in particular any stream that
begins with a `SyncComplete` marker — the increment performed before the
`SyncComplete` branch keeps the counter at least 1 at the decrement point,
so the decrement never underflows; and a single `SyncComplete` step from
any state whose counter increment does not wrap records no underflow. The
original unconditional claim fails only when the count of
announcement/update messages reaches `2 ^ 32 - 1`, where the increment
itself wraps the u32 counter to 0 before the decrement. -/
theorem sync_decrement_no_underflow (msgs : List (Nat × GossipMessage))
    (h : countedMessages msgs + 1 < u32Mod) :
    (persistGossip msgs).underflowAtDecrement = false
    ∧ (∀ (s : PersisterState) (now : Nat), s.i + 1 < u32Mod →
        (persistStep s now GossipMessage.InitialSyncComplete).underflowAtDecrement
          = s.underflowAtDecrement) := by
  constructor
  · apply persistRun_underflow_false msgs initialPersisterState rfl
    rw [show initialPersisterState.i = 0 from rfl]
    omega
  · intro s now hlt
    have hne : s.i + 1 ≠ 0 := by omega
    have h1 : (s.i + 1) % u32Mod = s.i + 1 := Nat.mod_eq_of_lt hlt
    rw [persistStep_underflow_sync, h1]
    simp [hne]

/-- Witness for C9: a stream that begins with a `SyncComplete` marker (two
of them) records no underflow, and a sync step from the initial state
records none. -/
theorem sync_decrement_no_underflow_witness :
    countedMessages [((0:Nat), GossipMessage.InitialSyncComplete),
        (0, GossipMessage.InitialSyncComplete)] + 1 < u32Mod
    ∧ ((persistGossip [((0:Nat), GossipMessage.InitialSyncComplete),
          (0, GossipMessage.InitialSyncComplete)]).underflowAtDecrement = false
      ∧ (∀ (s : PersisterState) (now : Nat), s.i + 1 < u32Mod →
          (persistStep s now GossipMessage.InitialSyncComplete).underflowAtDecrement
            = s.underflowAtDecrement)) :=
  ⟨by decide,
   sync_decrement_no_underflow [((0:Nat), GossipMessage.InitialSyncComplete),
     (0, GossipMessage.InitialSyncComplete)] (by decide)⟩

/-- Claim C9 counterexample: on the stream of `2 ^ 32 - 1` announcements
followed by one `SyncComplete`, the increment in the `SyncComplete`
iteration wraps the u32 counter to 0, so the counter is 0 — not at least
1 — at the decrement point and the decrement underflows. -/
theorem sync_decrement_underflow_counterexample :
    (persistGossip (List.replicate (u32Mod - 1)
        (0, GossipMessage.ChannelAnnouncement exampleAnnouncement)
      ++ [(0, GossipMessage.InitialSyncComplete)])).underflowAtDecrement = true := by
  rw [persistGossip, persistRun_append, persistRun_cons, persistRun_nil]
  have hW : u32Mod = 4294967296 := by norm_num [u32Mod]
  have hinit : initialPersisterState.i < u32Mod := by
    norm_num [initialPersisterState, u32Mod]
  have hcount : countedMessages (List.replicate (u32Mod - 1)
      (0, GossipMessage.ChannelAnnouncement exampleAnnouncement)) = u32Mod - 1 := by
    unfold countedMessages
    rw [List.countP_eq_length.mpr, List.length_replicate]
    intro x hx
    rw [List.eq_of_mem_replicate hx]
  have hi : (persistRun initialPersisterState (List.replicate (u32Mod - 1)
      (0, GossipMessage.ChannelAnnouncement exampleAnnouncement))).i = u32Mod - 1 := by
    rw [persistRun_i _ initialPersisterState hinit, hcount,
      show initialPersisterState.i = 0 from rfl, hW]
  have hzero : ((persistRun initialPersisterState (List.replicate (u32Mod - 1)
      (0, GossipMessage.ChannelAnnouncement exampleAnnouncement))).i + 1) % u32Mod
      = 0 := by
    rw [hi, hW]
  rw [persistStep_underflow_sync, hzero]
  simp
